import Mathlib

/-!
Verification of the legal-document-intake processing pipeline
(`backend/workflows/processing_workflow.py`, `backend/schemas.py`,
`backend/main.py`, `backend/services/document_processor.py`).

The workflow is embedded shallowly: the LangGraph node functions become
total Lean functions on an explicit `ProcessingState`, the three external
collaborators (text extractor, structured extractor, PDF renderer) become
an `Outcome` parameter that can either return a value or raise, and the
graph's conditional edges become the explicit sequencing in `runWorkflow`.
The file system touched by the PDF renderer is threaded as a list of paths.
-/

namespace LegalDocIntake

/-- Processing status values of `ProcessingState.processing_status`
    (`schemas.py`, `Literal["pending", "processing", "completed", "failed"]`). -/
inductive Status where
  | pending
  | processing
  | completed
  | failed
deriving DecidableEq, Repr

/-- Structured data extracted by the LLM service; the code stores a `dict`,
    embedded as an association list. -/
abbrev StructuredData := List (String × String)

/-- `processing_metadata["validation"]` entry written by `_validate_document_node`. -/
structure ValidationMeta where
  file_exists : Bool
  format_supported : Bool
  validated_at : String
deriving DecidableEq, Repr

/-- `processing_metadata["document_processing"]` entry written by `_process_document_node`. -/
structure DocumentProcessingMeta where
  page_count : Nat
  format : String
  tables_found : Nat
  processing_node : String
deriving DecidableEq, Repr

/-- `processing_metadata["extraction"]` entry written by `_extract_data_node`. -/
structure ExtractionMeta where
  model_used : String
  extraction_successful : Bool
  extraction_node : String
deriving DecidableEq, Repr

/-- `processing_metadata["pdf_generation"]` entry written by `_generate_pdf_node`. -/
structure PdfGenerationMeta where
  pdf_generated : Bool
  pdf_path : Option String
  generation_node : String
deriving DecidableEq, Repr

/-- `processing_metadata["error_handling"]` entry written by `_handle_error_node`. -/
structure ErrorHandlingMeta where
  final_error : Option String
  retry_count : Nat
  error_node : String
deriving DecidableEq, Repr

/-- The `processing_metadata` dict, embedded as one optional slot per key
    the workflow nodes ever write. -/
structure ProcessingMetadata where
  validation : Option ValidationMeta := none
  document_processing : Option DocumentProcessingMeta := none
  extraction : Option ExtractionMeta := none
  pdf_generation : Option PdfGenerationMeta := none
  error_handling : Option ErrorHandlingMeta := none
deriving DecidableEq, Repr

/-- `ProcessingState` from `schemas.py`, with the same fields and defaults. -/
structure ProcessingState where
  job_id : String
  document_type : String
  file_path : String
  extracted_text : Option String := none
  structured_data : Option StructuredData := none
  processing_status : Status := .pending
  error_message : Option String := none
  pdf_path : Option String := none
  current_node : Option String := none
  processing_metadata : ProcessingMetadata := {}
  retry_count : Nat := 0
deriving DecidableEq, Repr

/-- `ProcessingState.update_status`: sets `processing_status`, and sets
    `current_node` only when `node` is truthy (Python: `if node:` — both
    `None` and the empty string are falsy). -/
def updateStatus (s : ProcessingState) (st : Status) (node : Option String) : ProcessingState :=
  { s with
    processing_status := st
    current_node := if node.getD "" = "" then s.current_node else node }

/-- The initial `ProcessingState(job_id=…, document_type=…, file_path=…)`
    constructed by `process_document_background` and `/upload`; every other
    field takes its schema default. -/
def mkProcessingState (jobId docType filePath : String) : ProcessingState :=
  { job_id := jobId, document_type := docType, file_path := filePath }

/-- A call into an external collaborator either returns a value or raises
    an exception carrying a message. -/
inductive Outcome (α : Type) where
  | raises (msg : String)
  | returns (val : α)
deriving DecidableEq

/-- Result dict of `DocumentProcessor.process_document`: `success`, plus
    the optional keys the node reads with `.get`. -/
structure ProcResult where
  success : Bool
  extracted_text : String := ""
  error : Option String := none
  page_count : Option Nat := none
  format : Option String := none
  tables_found : Option Nat := none
deriving DecidableEq

/-- Result dict of `ExtractionService.extract_from_document`. -/
structure ExtractResult where
  success : Bool
  data : StructuredData := []
  details : Option String := none
  model_used : Option String := none
deriving DecidableEq

/-- One run's collaborator behavior: each external call either raises or
    returns. `invokeException` models an exception thrown by the LangGraph
    `invoke` machinery itself inside `process_document`. -/
structure Collab where
  validateFormat : Outcome Bool
  processDoc : Outcome ProcResult
  extractData : Outcome ExtractResult
  genPdf : Outcome String
  invokeException : Option String := none
deriving DecidableEq

/-- `_validate_document_node`: set status/current node, call
    `validate_file_format`, record metadata on success, convert a `False`
    result or an exception into failure fields. -/
def validateDocumentNode (c : Collab) (s : ProcessingState) : ProcessingState :=
  let s1 := updateStatus s .processing (some "validate_document")
  match c.validateFormat with
  | .raises m =>
      updateStatus { s1 with error_message := some ("Validation error: " ++ m) }
        .failed (some "validate_document")
  | .returns ok =>
      if !ok then
        updateStatus { s1 with error_message := some ("Unsupported file format: " ++ s1.file_path) }
          .failed (some "validate_document")
      else
        { s1 with
          processing_metadata := { s1.processing_metadata with
            validation := some { file_exists := true,
                                 format_supported := true,
                                 validated_at := "validate_document" } } }

/-- `_process_document_node`: extract text via the document processor. -/
def processDocumentNode (c : Collab) (s : ProcessingState) : ProcessingState :=
  let s1 := updateStatus s .processing (some "process_document")
  match c.processDoc with
  | .raises m =>
      updateStatus { s1 with error_message := some ("Processing error: " ++ m) }
        .failed (some "process_document")
  | .returns r =>
      if !r.success then
        updateStatus
          { s1 with
            error_message := some ("Document processing failed: " ++
                                   r.error.getD "Unknown error") }
          .failed (some "process_document")
      else
        let s2 := { s1 with extracted_text := some r.extracted_text }
        { s2 with
          processing_metadata := { s2.processing_metadata with
            document_processing := some { page_count := r.page_count.getD 1,
                                          format := r.format.getD "unknown",
                                          tables_found := r.tables_found.getD 0,
                                          processing_node := "process_document" } } }

/-- `_extract_data_node`: extract structured data via the LLM service. -/
def extractDataNode (c : Collab) (s : ProcessingState) : ProcessingState :=
  let s1 := updateStatus s .processing (some "extract_data")
  match c.extractData with
  | .raises m =>
      updateStatus { s1 with error_message := some ("Extraction error: " ++ m) }
        .failed (some "extract_data")
  | .returns r =>
      if !r.success then
        updateStatus
          { s1 with
            error_message := some ("Data extraction failed: " ++
                                   r.details.getD "Unknown error") }
          .failed (some "extract_data")
      else
        let s2 := { s1 with structured_data := some r.data }
        { s2 with
          processing_metadata := { s2.processing_metadata with
            extraction := some { model_used := r.model_used.getD "unknown",
                                 extraction_successful := true,
                                 extraction_node := "extract_data" } } }

/-- Python truthiness of `state.structured_data` used by
    `if not state.structured_data:` — falsy when `None` or the empty dict. -/
def structuredDataFalsy : Option StructuredData → Bool
  | none => true
  | some l => l.isEmpty

/-- `_generate_pdf_node`: render the report. On success the renderer writes
    the file and returns its path (`PDFGenerator.generate_pdf` builds the
    document at `filepath` before returning `str(filepath)`), modelled by
    prepending the path to the file-system list. -/
def generatePdfNode (c : Collab) (fs : List String) (s : ProcessingState) :
    ProcessingState × List String :=
  let s1 := updateStatus s .processing (some "generate_pdf")
  if structuredDataFalsy s1.structured_data then
    (updateStatus { s1 with error_message := some "No structured data available for PDF generation" }
       .failed (some "generate_pdf"), fs)
  else
    match c.genPdf with
    | .raises m =>
        (updateStatus { s1 with error_message := some ("PDF generation error: " ++ m) }
           .failed (some "generate_pdf"), fs)
    | .returns p =>
        let s2 := { s1 with pdf_path := some p }
        let s3 := { s2 with
          processing_metadata := { s2.processing_metadata with
            pdf_generation := some { pdf_generated := true,
                                     pdf_path := s2.pdf_path,
                                     generation_node := "generate_pdf" } } }
        (updateStatus s3 .completed (some "generate_pdf"), p :: fs)

/-- `_handle_error_node`, exactly as written: when `retry_count < 3` it
    increments the counter and sets status `pending`/node `retry`, and then
    UNCONDITIONALLY sets status `failed`/node `handle_error` (the `pending`
    write is dead), finally recording the error-handling metadata. -/
def handleErrorNode (s : ProcessingState) : ProcessingState :=
  let maxRetries := 3
  let s1 := if s.retry_count < maxRetries then
      updateStatus { s with retry_count := s.retry_count + 1 } .pending (some "retry")
    else s
  let s2 := updateStatus s1 .failed (some "handle_error")
  { s2 with
    processing_metadata := { s2.processing_metadata with
      error_handling := some { final_error := s2.error_message,
                               retry_count := s2.retry_count,
                               error_node := "handle_error" } } }

/-- The three `_should_continue_after_*` routing functions (all identical):
    `"continue"` when the status is not `failed`, else `"error"`. -/
def shouldContinueAfter (s : ProcessingState) : String :=
  if s.processing_status ≠ .failed then "continue" else "error"

/-- Result of one `workflow.invoke`: the final state, the list of graph
    nodes visited in order, and the file system. -/
structure RunResult where
  final : ProcessingState
  visited : List String
  files : List String
deriving DecidableEq

/-- One invocation of the compiled graph built by `_build_workflow`:
    START → validate_document, conditional edges (`continue` → next step,
    `error` → handle_error) after the first three nodes, unconditional
    edges generate_pdf → END and handle_error → END. -/
def runWorkflow (c : Collab) (fs : List String) (s0 : ProcessingState) : RunResult :=
  let s1 := validateDocumentNode c s0
  if shouldContinueAfter s1 = "continue" then
    let s2 := processDocumentNode c s1
    if shouldContinueAfter s2 = "continue" then
      let s3 := extractDataNode c s2
      if shouldContinueAfter s3 = "continue" then
        let r := generatePdfNode c fs s3
        ⟨r.1, ["validate_document", "process_document", "extract_data", "generate_pdf"], r.2⟩
      else
        ⟨handleErrorNode s3, ["validate_document", "process_document", "extract_data", "handle_error"], fs⟩
    else
      ⟨handleErrorNode s2, ["validate_document", "process_document", "handle_error"], fs⟩
  else
    ⟨handleErrorNode s1, ["validate_document", "handle_error"], fs⟩

/-- `DocumentProcessingWorkflow.process_document`: invoke the graph inside
    `try`, and convert any exception thrown by the invocation machinery into
    failure fields on the initial state. -/
def processDocumentEntry (c : Collab) (fs : List String) (s0 : ProcessingState) : ProcessingState :=
  match c.invokeException with
  | some m =>
      updateStatus { s0 with error_message := some ("Workflow error: " ++ m) }
        .failed (some "workflow_error")
  | none => (runWorkflow c fs s0).final

/-- `process_document_background` in `main.py`: build the initial state,
    run the workflow, and convert an exception raised inside the background
    task itself into a fresh `failed` state with the stringified error. -/
def processDocumentBackground (c : Collab) (bgException : Option String) (fs : List String)
    (jobId filePath docType : String) : ProcessingState :=
  match bgException with
  | some m =>
      { mkProcessingState jobId docType filePath with
          processing_status := .failed, error_message := some m }
  | none => processDocumentEntry c fs (mkProcessingState jobId docType filePath)

/-! ### Path handling (pathlib semantics used by the upload layer and
`DocumentProcessor.validate_file_format`) -/

/-- Characters of a path's final component (pathlib `Path.name`): everything
    after the last `/`. -/
def pathNameChars (p : List Char) : List Char :=
  (p.reverse.takeWhile (fun c => c ≠ '/')).reverse

/-- Split a character list at its first `.`: returns the characters before
    it and the characters after it, or `none` when there is no dot. -/
def splitAtFirstDot : List Char → Option (List Char × List Char)
  | [] => none
  | c :: cs =>
    if c = '.' then some ([], cs)
    else
      match splitAtFirstDot cs with
      | none => none
      | some (a, b) => some (c :: a, b)

/-- pathlib `PurePath.suffix` on a path's name: the substring from the last
    dot, provided that dot is neither the first nor the last character of
    the name; otherwise the empty suffix. (`rfind` of `.` with the CPython
    guard `0 < i < len(name) - 1`.) -/
def pySuffixChars (name : List Char) : List Char :=
  match splitAtFirstDot name.reverse with
  | none => []
  | some (a, b) => if a.isEmpty || b.isEmpty then [] else '.' :: a.reverse

/-- `Path(p).suffix` for a path string. -/
def pathSuffix (p : String) : String :=
  ⟨pySuffixChars (pathNameChars p.data)⟩

/-- Python `str.lower`, restricted to the ASCII case mapping used here. -/
def strToLower (s : String) : String :=
  ⟨s.data.map Char.toLower⟩

/-- Python `str.lstrip('.')`: drop every leading dot. -/
def lstripDots (s : String) : String :=
  ⟨s.data.dropWhile (fun c => c = '.')⟩

/-! ### DocumentProcessor format validation (`services/document_processor.py`) -/

/-- `DocumentProcessor.get_supported_formats`. -/
def getSupportedFormats : List String :=
  ["pdf", "docx", "pptx", "xlsx", "html", "png", "jpg", "jpeg", "tiff", "bmp"]

/-- `DocumentProcessor.validate_file_format`: take the path's suffix,
    lowercase it, strip leading dots, and test membership in the supported
    formats. -/
def validate_file_format (filePath : String) : Bool :=
  let extension := lstripDots (strToLower (pathSuffix filePath))
  getSupportedFormats.contains extension

/-! ### Upload endpoint (`main.py`) -/

/-- `MAX_FILE_SIZE` (10 MB). -/
def MAX_FILE_SIZE : Nat := 10 * 1024 * 1024

/-- `ALLOWED_EXTENSIONS` of the upload endpoint. -/
def ALLOWED_EXTENSIONS : List String :=
  [".pdf", ".docx", ".png", ".jpg", ".jpeg", ".tiff", ".bmp"]

/-- The two accepted values of the `document_type` form field. -/
def validDocumentTypes : List String := ["employment_contract", "payslip"]

/-- An uploaded multipart file: its client-supplied filename (empty string
    for a missing/falsy filename) and its size in bytes. -/
structure UploadFile where
  filename : String
  size : Nat
deriving DecidableEq

/-- An HTTPException raised by the endpoint: status code and detail. -/
structure HttpError where
  status_code : Nat
  detail : String
deriving DecidableEq

/-- `validate_file_upload`: reject a missing filename, an extension outside
    `ALLOWED_EXTENSIONS` (after lowercasing), or an oversize file, each with
    a 400; returns `none` when the file passes. -/
def validate_file_upload (f : UploadFile) : Option HttpError :=
  if f.filename = "" then some ⟨400, "No filename provided"⟩
  else
    let fileExtension := strToLower (pathSuffix f.filename)
    if ¬ ALLOWED_EXTENSIONS.contains fileExtension then
      some ⟨400, "File type not supported"⟩
    else if f.size > MAX_FILE_SIZE then
      some ⟨400, "File too large"⟩
    else none

/-- `save_uploaded_file`: writes the content to
    `uploads/{job_id}{file_extension}` and returns that path. Its internal
    oversize check raises a 400 that its own `except` converts to a 500
    `"Error saving file"`, which is what the caller observes. -/
def save_uploaded_file (f : UploadFile) (jobId : String) : Except HttpError String :=
  let fileExtension := strToLower (pathSuffix f.filename)
  if f.size > MAX_FILE_SIZE then .error ⟨500, "Error saving file"⟩
  else .ok ("uploads/" ++ jobId ++ fileExtension)

/-- Body of the `/upload` success response. -/
structure UploadResponse where
  job_id : String
  message : String
  file_path : String
deriving DecidableEq

/-- The in-memory `job_storage` dict, as an association list. -/
abbrev JobStore := List (String × ProcessingState)

deriving instance DecidableEq for Except

/-- What one `/upload` request produces: the HTTP response, the job store
    afterwards, and whether the handler reached the point where a `job_id`
    is generated (`job_id = str(uuid.uuid4())`). -/
structure UploadOutcome where
  response : Except HttpError UploadResponse
  store : JobStore
  jobIdGenerated : Bool
deriving DecidableEq

/-- `upload_document` (`POST /upload`): reject an invalid `document_type`
    (400), then run `validate_file_upload`; only afterwards generate the
    job id, save the file, schedule the background task, and insert the
    initial `pending` state into `job_storage`. An exception inside the
    `try` (here: the save step) is converted to a 500 `"Upload failed"`. -/
def uploadDocument (documentType : String) (f : UploadFile) (jobId : String)
    (store : JobStore) : UploadOutcome :=
  if ¬ validDocumentTypes.contains documentType then
    ⟨.error ⟨400, "document_type must be either employment_contract or payslip"⟩, store, false⟩
  else
    match validate_file_upload f with
    | some e => ⟨.error e, store, false⟩
    | none =>
      match save_uploaded_file f jobId with
      | .error _ => ⟨.error ⟨500, "Upload failed"⟩, store, true⟩
      | .ok path =>
        let initialState := { mkProcessingState jobId documentType path with
                              processing_status := Status.pending }
        ⟨.ok ⟨jobId, "Document uploaded successfully. Processing started.", path⟩,
         (jobId, initialState) :: store, true⟩

/-! ### Concrete collaborator behaviors used for evaluations -/

/-- A run in which every collaborator succeeds. -/
def cAllOk : Collab :=
  { validateFormat := .returns true,
    processDoc := .returns { success := true, extracted_text := "text" },
    extractData := .returns { success := true, data := [("employee_full_name", "John Doe")] },
    genPdf := .returns "generated_pdfs/employment_contract_job1.pdf" }

/-- A run in which the structured extractor fails (returns `success=False`)
    on its only attempt; everything else succeeds. -/
def cExtractFail : Collab :=
  { cAllOk with extractData := .returns { success := false, details := some "LLM boom" } }

/-- A run in which the PDF renderer raises; everything before succeeds. -/
def cPdfRaise : Collab :=
  { cAllOk with genPdf := .raises "disk full" }

/-- A run in which every collaborator call raises. -/
def cAllRaise : Collab :=
  { validateFormat := .raises "vboom",
    processDoc := .raises "pboom",
    extractData := .raises "eboom",
    genPdf := .raises "gboom",
    invokeException := some "wboom" }

/-- The initial state of a demonstration job, as the background task
    builds it. -/
def s0demo : ProcessingState :=
  mkProcessingState "job1" "employment_contract" "uploads/job1.pdf"

/-! ### Helper lemmas -/

section Helpers

variable (c : Collab) (s : ProcessingState) (st : Status) (node : Option String)

@[simp] lemma updateStatus_processing_status :
    (updateStatus s st node).processing_status = st := rfl

@[simp] lemma updateStatus_error_message :
    (updateStatus s st node).error_message = s.error_message := rfl

@[simp] lemma updateStatus_job_id : (updateStatus s st node).job_id = s.job_id := rfl

@[simp] lemma updateStatus_document_type :
    (updateStatus s st node).document_type = s.document_type := rfl

@[simp] lemma updateStatus_file_path :
    (updateStatus s st node).file_path = s.file_path := rfl

@[simp] lemma updateStatus_extracted_text :
    (updateStatus s st node).extracted_text = s.extracted_text := rfl

@[simp] lemma updateStatus_structured_data :
    (updateStatus s st node).structured_data = s.structured_data := rfl

@[simp] lemma updateStatus_pdf_path :
    (updateStatus s st node).pdf_path = s.pdf_path := rfl

@[simp] lemma updateStatus_retry_count :
    (updateStatus s st node).retry_count = s.retry_count := rfl

lemma updateStatus_current_node :
    (updateStatus s st node).current_node =
      if node.getD "" = "" then s.current_node else node := rfl

lemma validate_current_node :
    (validateDocumentNode c s).current_node = some "validate_document" := by
  unfold validateDocumentNode
  rcases c.validateFormat with m | ok
  · simp [updateStatus_current_node]
  · cases ok <;> simp [updateStatus_current_node]

lemma validate_status_or :
    (validateDocumentNode c s).processing_status = .processing ∨
    (validateDocumentNode c s).processing_status = .failed := by
  unfold validateDocumentNode
  rcases c.validateFormat with m | ok
  · right; simp
  · cases ok
    · right; simp
    · left; simp

lemma validate_failed_message :
    (validateDocumentNode c s).processing_status = .failed →
    (validateDocumentNode c s).error_message.isSome := by
  unfold validateDocumentNode
  rcases c.validateFormat with m | ok
  · simp
  · cases ok <;> simp

lemma process_current_node :
    (processDocumentNode c s).current_node = some "process_document" := by
  unfold processDocumentNode
  rcases c.processDoc with m | r
  · simp [updateStatus_current_node]
  · cases hr : r.success <;> simp [hr, updateStatus_current_node]

lemma process_status_or :
    (processDocumentNode c s).processing_status = .processing ∨
    (processDocumentNode c s).processing_status = .failed := by
  unfold processDocumentNode
  rcases c.processDoc with m | r
  · right; simp
  · cases hr : r.success
    · right; simp [hr]
    · left; simp [hr]

lemma process_failed_message :
    (processDocumentNode c s).processing_status = .failed →
    (processDocumentNode c s).error_message.isSome := by
  unfold processDocumentNode
  rcases c.processDoc with m | r
  · simp
  · cases hr : r.success <;> simp [hr]

lemma extract_current_node :
    (extractDataNode c s).current_node = some "extract_data" := by
  unfold extractDataNode
  rcases c.extractData with m | r
  · simp [updateStatus_current_node]
  · cases hr : r.success <;> simp [hr, updateStatus_current_node]

lemma extract_status_or :
    (extractDataNode c s).processing_status = .processing ∨
    (extractDataNode c s).processing_status = .failed := by
  unfold extractDataNode
  rcases c.extractData with m | r
  · right; simp
  · cases hr : r.success
    · right; simp [hr]
    · left; simp [hr]

lemma extract_failed_message :
    (extractDataNode c s).processing_status = .failed →
    (extractDataNode c s).error_message.isSome := by
  unfold extractDataNode
  rcases c.extractData with m | r
  · simp
  · cases hr : r.success <;> simp [hr]

lemma genPdf_current_node (fs : List String) :
    (generatePdfNode c fs s).1.current_node = some "generate_pdf" := by
  unfold generatePdfNode
  rcases hd : structuredDataFalsy s.structured_data <;>
    rcases c.genPdf with m | p <;>
      simp [hd, updateStatus_current_node]

lemma genPdf_status_or (fs : List String) :
    (generatePdfNode c fs s).1.processing_status = .completed ∨
    (generatePdfNode c fs s).1.processing_status = .failed := by
  unfold generatePdfNode
  rcases hd : structuredDataFalsy s.structured_data
  · rcases c.genPdf with m | p
    · right; simp [hd]
    · left; simp [hd]
  · right; simp [hd]

lemma genPdf_failed_message (fs : List String) :
    (generatePdfNode c fs s).1.processing_status = .failed →
    (generatePdfNode c fs s).1.error_message.isSome := by
  unfold generatePdfNode
  rcases hd : structuredDataFalsy s.structured_data
  · rcases c.genPdf with m | p <;> simp [hd]
  · simp [hd]

lemma genPdf_completed (fs : List String) :
    (generatePdfNode c fs s).1.processing_status = .completed →
    ∃ p, c.genPdf = .returns p ∧
      (generatePdfNode c fs s).1.pdf_path = some p ∧
      (generatePdfNode c fs s).2 = p :: fs := by
  unfold generatePdfNode
  rcases hd : structuredDataFalsy s.structured_data
  · rcases hg : c.genPdf with m | p
    · simp [hd, hg]
    · simp [hd, hg]
  · simp [hd]

lemma handleError_status : (handleErrorNode s).processing_status = .failed := by
  by_cases h : s.retry_count < 3 <;> simp [handleErrorNode, h]

lemma handleError_error_message :
    (handleErrorNode s).error_message = s.error_message := by
  by_cases h : s.retry_count < 3 <;> simp [handleErrorNode, h]

lemma handleError_retry :
    (handleErrorNode s).retry_count =
      if s.retry_count < 3 then s.retry_count + 1 else s.retry_count := by
  by_cases h : s.retry_count < 3 <;> simp [handleErrorNode, h]

@[simp] lemma validate_retry :
    (validateDocumentNode c s).retry_count = s.retry_count := by
  unfold validateDocumentNode
  rcases c.validateFormat with m | ok
  · simp
  · cases ok <;> simp

@[simp] lemma process_retry :
    (processDocumentNode c s).retry_count = s.retry_count := by
  unfold processDocumentNode
  rcases c.processDoc with m | r
  · simp
  · cases hr : r.success <;> simp [hr]

@[simp] lemma extract_retry :
    (extractDataNode c s).retry_count = s.retry_count := by
  unfold extractDataNode
  rcases c.extractData with m | r
  · simp
  · cases hr : r.success <;> simp [hr]

@[simp] lemma genPdf_retry (fs : List String) :
    (generatePdfNode c fs s).1.retry_count = s.retry_count := by
  unfold generatePdfNode
  rcases hd : structuredDataFalsy s.structured_data
  · rcases c.genPdf with m | p <;> simp [hd]
  · simp [hd]

lemma shouldContinueAfter_eq :
    (shouldContinueAfter s = "continue") ↔ s.processing_status ≠ .failed := by
  unfold shouldContinueAfter
  by_cases h : s.processing_status = .failed <;> simp [h]

lemma run_failed_message (fs : List String) (s0 : ProcessingState) :
    (runWorkflow c fs s0).final.processing_status = .failed →
    (runWorkflow c fs s0).final.error_message.isSome := by
  unfold runWorkflow
  simp only [shouldContinueAfter_eq]
  by_cases h1 : (validateDocumentNode c s0).processing_status = .failed
  · simp only [h1, ne_eq, not_true_eq_false, if_false]
    intro _
    rw [handleError_error_message]
    exact validate_failed_message c s0 h1
  · simp only [h1, ne_eq, not_false_eq_true, if_true]
    by_cases h2 : (processDocumentNode c (validateDocumentNode c s0)).processing_status = .failed
    · simp only [h2, ne_eq, not_true_eq_false, if_false]
      intro _
      rw [handleError_error_message]
      exact process_failed_message c _ h2
    · simp only [h2, ne_eq, not_false_eq_true, if_true]
      by_cases h3 : (extractDataNode c (processDocumentNode c (validateDocumentNode c s0))).processing_status = .failed
      · simp only [h3, ne_eq, not_true_eq_false, if_false]
        intro _
        rw [handleError_error_message]
        exact extract_failed_message c _ h3
      · simp only [h3, ne_eq, not_false_eq_true, if_true]
        exact genPdf_failed_message c _ fs

lemma run_retry_bound (fs : List String) (s0 : ProcessingState) :
    (runWorkflow c fs s0).final.retry_count ≤ s0.retry_count + 1 := by
  unfold runWorkflow
  simp only [shouldContinueAfter_eq]
  by_cases h1 : (validateDocumentNode c s0).processing_status = .failed
  · simp only [h1, ne_eq, not_true_eq_false, if_false]
    rw [handleError_retry, validate_retry]
    split <;> omega
  · simp only [h1, ne_eq, not_false_eq_true, if_true]
    by_cases h2 : (processDocumentNode c (validateDocumentNode c s0)).processing_status = .failed
    · simp only [h2, ne_eq, not_true_eq_false, if_false]
      rw [handleError_retry, process_retry, validate_retry]
      split <;> omega
    · simp only [h2, ne_eq, not_false_eq_true, if_true]
      by_cases h3 : (extractDataNode c (processDocumentNode c (validateDocumentNode c s0))).processing_status = .failed
      · simp only [h3, ne_eq, not_true_eq_false, if_false]
        rw [handleError_retry, extract_retry, process_retry, validate_retry]
        split <;> omega
      · simp only [h3, ne_eq, not_false_eq_true, if_true]
        rw [genPdf_retry, extract_retry, process_retry, validate_retry]
        omega

lemma entry_failed_message (fs : List String) (s0 : ProcessingState) :
    (processDocumentEntry c fs s0).processing_status = .failed →
    (processDocumentEntry c fs s0).error_message.isSome := by
  unfold processDocumentEntry
  rcases c.invokeException with _ | m
  · exact run_failed_message c fs s0
  · simp

lemma background_failed_message (bg : Option String) (fs : List String)
    (jid fp dt : String) :
    (processDocumentBackground c bg fs jid fp dt).processing_status = .failed →
    (processDocumentBackground c bg fs jid fp dt).error_message.isSome := by
  unfold processDocumentBackground
  rcases bg with _ | m
  · exact entry_failed_message c fs _
  · simp

lemma validate_frame :
    (validateDocumentNode c s).job_id = s.job_id ∧
    (validateDocumentNode c s).document_type = s.document_type ∧
    (validateDocumentNode c s).file_path = s.file_path ∧
    (validateDocumentNode c s).extracted_text = s.extracted_text ∧
    (validateDocumentNode c s).structured_data = s.structured_data ∧
    (validateDocumentNode c s).pdf_path = s.pdf_path ∧
    (validateDocumentNode c s).retry_count = s.retry_count := by
  unfold validateDocumentNode
  rcases c.validateFormat with m | ok
  · simp
  · cases ok <;> simp

lemma process_frame :
    (processDocumentNode c s).job_id = s.job_id ∧
    (processDocumentNode c s).document_type = s.document_type ∧
    (processDocumentNode c s).file_path = s.file_path ∧
    (processDocumentNode c s).structured_data = s.structured_data ∧
    (processDocumentNode c s).pdf_path = s.pdf_path ∧
    (processDocumentNode c s).retry_count = s.retry_count := by
  unfold processDocumentNode
  rcases c.processDoc with m | r
  · simp
  · cases hr : r.success <;> simp [hr]

lemma extract_frame :
    (extractDataNode c s).job_id = s.job_id ∧
    (extractDataNode c s).document_type = s.document_type ∧
    (extractDataNode c s).file_path = s.file_path ∧
    (extractDataNode c s).extracted_text = s.extracted_text ∧
    (extractDataNode c s).pdf_path = s.pdf_path ∧
    (extractDataNode c s).retry_count = s.retry_count := by
  unfold extractDataNode
  rcases c.extractData with m | r
  · simp
  · cases hr : r.success <;> simp [hr]

lemma genPdf_frame (fs : List String) :
    (generatePdfNode c fs s).1.job_id = s.job_id ∧
    (generatePdfNode c fs s).1.document_type = s.document_type ∧
    (generatePdfNode c fs s).1.file_path = s.file_path ∧
    (generatePdfNode c fs s).1.extracted_text = s.extracted_text ∧
    (generatePdfNode c fs s).1.structured_data = s.structured_data ∧
    (generatePdfNode c fs s).1.retry_count = s.retry_count := by
  unfold generatePdfNode
  rcases hd : structuredDataFalsy s.structured_data
  · rcases c.genPdf with m | p <;> simp [hd]
  · simp [hd]

lemma run_completed (fs : List String) (s0 : ProcessingState) :
    (runWorkflow c fs s0).final.processing_status = .completed →
    ∃ p, c.genPdf = .returns p ∧
      (runWorkflow c fs s0).final.pdf_path = some p ∧
      p ∈ (runWorkflow c fs s0).files := by
  unfold runWorkflow
  simp only [shouldContinueAfter_eq]
  by_cases h1 : (validateDocumentNode c s0).processing_status = .failed
  · simp only [h1, ne_eq, not_true_eq_false, if_false]
    simp [handleError_status]
  · simp only [h1, ne_eq, not_false_eq_true, if_true]
    by_cases h2 : (processDocumentNode c (validateDocumentNode c s0)).processing_status = .failed
    · simp only [h2, ne_eq, not_true_eq_false, if_false]
      simp [handleError_status]
    · simp only [h2, ne_eq, not_false_eq_true, if_true]
      by_cases h3 : (extractDataNode c (processDocumentNode c (validateDocumentNode c s0))).processing_status = .failed
      · simp only [h3, ne_eq, not_true_eq_false, if_false]
        simp [handleError_status]
      · simp only [h3, ne_eq, not_false_eq_true, if_true]
        intro hc
        rcases genPdf_completed c _ fs hc with ⟨p, hg, hp, hfs⟩
        exact ⟨p, hg, hp, by rw [hfs]; exact List.mem_cons_self p fs⟩

lemma run_visited_handler (fs : List String) (s0 : ProcessingState) :
    (runWorkflow c fs s0).final.processing_status = .failed →
    (("handle_error" ∈ (runWorkflow c fs s0).visited) ↔
      ¬ ("generate_pdf" ∈ (runWorkflow c fs s0).visited)) := by
  unfold runWorkflow
  simp only [shouldContinueAfter_eq]
  by_cases h1 : (validateDocumentNode c s0).processing_status = .failed
  · simp only [h1, ne_eq, not_true_eq_false, if_false]
    intro _; decide
  · simp only [h1, ne_eq, not_false_eq_true, if_true]
    by_cases h2 : (processDocumentNode c (validateDocumentNode c s0)).processing_status = .failed
    · simp only [h2, ne_eq, not_true_eq_false, if_false]
      intro _; decide
    · simp only [h2, ne_eq, not_false_eq_true, if_true]
      by_cases h3 : (extractDataNode c (processDocumentNode c (validateDocumentNode c s0))).processing_status = .failed
      · simp only [h3, ne_eq, not_true_eq_false, if_false]
        intro _; decide
      · simp only [h3, ne_eq, not_false_eq_true, if_true]
        intro _; decide

end Helpers

/-! ### Claim theorems -/

/-- C1: the spec's retry behavior does not happen in the code.
`_handle_error_node` guards only the increment with `retry_count < 3`; the
`update_status("pending", "retry")` write is immediately overwritten by the
unconditional `update_status("failed", "handle_error")`, and the graph has
no edge from `handle_error` back to `validate_document`.  Evaluating the
embedded code on a job whose structured extractor fails on every attempt:
the run ends `failed` after a single pass with `retry_count = 1`, the
visited nodes show no restart, and the handler itself leaves a
below-maximum state at `failed`, not `pending`. -/
theorem c1_error_handler_never_retries :
    (runWorkflow cExtractFail [] s0demo).final.processing_status = Status.failed ∧
    (runWorkflow cExtractFail [] s0demo).final.retry_count = 1 ∧
    (runWorkflow cExtractFail [] s0demo).visited =
      ["validate_document", "process_document", "extract_data", "handle_error"] ∧
    (handleErrorNode { s0demo with
        processing_status := Status.failed,
        error_message := some "Data extraction failed: LLM boom" }).processing_status =
      Status.failed := by
  decide

/-- C2 counterexample: a failure of the render-report step does NOT reach
the error handler.  With the first three collaborators succeeding and the
PDF renderer raising, the run ends `failed` but `handle_error` is never
visited: `generate_pdf` has an unconditional edge to END. -/
theorem c2_counterexample_pdf_failure_skips_handler :
    (runWorkflow cPdfRaise [] s0demo).final.processing_status = Status.failed ∧
    ¬ ("handle_error" ∈ (runWorkflow cPdfRaise [] s0demo).visited) ∧
    (runWorkflow cPdfRaise [] s0demo).visited =
      ["validate_document", "process_document", "extract_data", "generate_pdf"] := by
  decide

/-- C2 amended: failures of `validate_document`, `process_document` and
`extract_data` route to `handle_error`, but a failing run that reached
`generate_pdf` terminates directly at END without the error handler: for
every failed run, the error handler was visited exactly when `generate_pdf`
was not. -/
theorem c2_amended_error_routing (c : Collab) (fs : List String) (s0 : ProcessingState)
    (hf : (runWorkflow c fs s0).final.processing_status = Status.failed) :
    ("handle_error" ∈ (runWorkflow c fs s0).visited) ↔
      ¬ ("generate_pdf" ∈ (runWorkflow c fs s0).visited) := by
  exact run_visited_handler c fs s0 hf

/-- Witness for C2 amended at a concrete failing run (PDF renderer raises). -/
theorem c2_amended_error_routing_witness :
    ("handle_error" ∈ (runWorkflow cPdfRaise [] s0demo).visited) ↔
      ¬ ("generate_pdf" ∈ (runWorkflow cPdfRaise [] s0demo).visited) :=
  c2_amended_error_routing cPdfRaise [] s0demo (by decide)

/-- C3 counterexample: a job failed on a retryable condition (structured
extraction failure, not the unsupported-format rejection) ends with
`retry_count = 1`, not `max_retries = 3`. -/
theorem c3_counterexample_retryable_failure :
    (runWorkflow cExtractFail [] s0demo).final.processing_status = Status.failed ∧
    (runWorkflow cExtractFail [] s0demo).final.error_message =
      some "Data extraction failed: LLM boom" ∧
    (runWorkflow cExtractFail [] s0demo).final.retry_count = 1 ∧
    ¬ (runWorkflow cExtractFail [] s0demo).final.retry_count = 3 := by
  decide

/-- C3 amended: for every job reaching `failed`, `error_message` is
non-null; but `retry_count` never reaches the maximum — a single pass
through the error handler means it is at most 1 (and 0 when the failure
happened in `generate_pdf`). -/
theorem c3_amended_failed_invariant (c : Collab) (fs : List String) (s0 : ProcessingState)
    (h0 : s0.retry_count = 0)
    (hf : (runWorkflow c fs s0).final.processing_status = Status.failed) :
    (runWorkflow c fs s0).final.error_message.isSome ∧
    (runWorkflow c fs s0).final.retry_count ≤ 1 := by
  refine ⟨run_failed_message c fs s0 hf, ?_⟩
  have := run_retry_bound c fs s0
  omega

/-- Witness for C3 amended at the concrete extraction-failure run. -/
theorem c3_amended_failed_invariant_witness :
    (runWorkflow cExtractFail [] s0demo).final.error_message.isSome ∧
    (runWorkflow cExtractFail [] s0demo).final.retry_count ≤ 1 :=
  c3_amended_failed_invariant cExtractFail [] s0demo (by decide) (by decide)

/-- C4: `retry_count` starts at 0 (schema default used by the initial
state), the four step nodes never change it, the error handler only
increases it, an increase never pushes it past the maximum 3, and a run
from a fresh job keeps it within the maximum. -/
theorem c4_retry_count_invariants (c : Collab) (fs : List String) (s : ProcessingState)
    (jid dt fp : String) :
    (mkProcessingState jid dt fp).retry_count = 0 ∧
    (validateDocumentNode c s).retry_count = s.retry_count ∧
    (processDocumentNode c s).retry_count = s.retry_count ∧
    (extractDataNode c s).retry_count = s.retry_count ∧
    (generatePdfNode c fs s).1.retry_count = s.retry_count ∧
    s.retry_count ≤ (handleErrorNode s).retry_count ∧
    (s.retry_count ≤ 3 → (handleErrorNode s).retry_count ≤ 3) ∧
    (s.retry_count = 0 → (runWorkflow c fs s).final.retry_count ≤ 3) := by
  refine ⟨rfl, validate_retry c s, process_retry c s, extract_retry c s,
    genPdf_retry c s fs, ?_, ?_, ?_⟩
  · rw [handleError_retry]; split <;> omega
  · rw [handleError_retry]; intro h; split <;> omega
  · intro h0; have := run_retry_bound c fs s; omega

/-- Witness for C4 at a concrete run with a failure (the handler fires). -/
theorem c4_retry_count_invariants_witness :
    (runWorkflow cExtractFail [] s0demo).final.retry_count ≤ 3 :=
  (c4_retry_count_invariants cExtractFail [] s0demo "job1" "employment_contract"
    "uploads/job1.pdf").2.2.2.2.2.2.2 (by decide)

/-- C5: whenever a state produced by a workflow node, a full run, the
`process_document` entry point, or the background task has status `failed`,
its `error_message` is set.  (The error handler itself preserves an
already-set message.) -/
theorem c5_failed_implies_error_message (c : Collab) (fs : List String)
    (s s0 : ProcessingState) (bg : Option String) (jid fp dt : String) :
    ((validateDocumentNode c s).processing_status = Status.failed →
      (validateDocumentNode c s).error_message.isSome) ∧
    ((processDocumentNode c s).processing_status = Status.failed →
      (processDocumentNode c s).error_message.isSome) ∧
    ((extractDataNode c s).processing_status = Status.failed →
      (extractDataNode c s).error_message.isSome) ∧
    ((generatePdfNode c fs s).1.processing_status = Status.failed →
      (generatePdfNode c fs s).1.error_message.isSome) ∧
    (s.error_message.isSome → (handleErrorNode s).error_message.isSome) ∧
    ((runWorkflow c fs s0).final.processing_status = Status.failed →
      (runWorkflow c fs s0).final.error_message.isSome) ∧
    ((processDocumentEntry c fs s0).processing_status = Status.failed →
      (processDocumentEntry c fs s0).error_message.isSome) ∧
    ((processDocumentBackground c bg fs jid fp dt).processing_status = Status.failed →
      (processDocumentBackground c bg fs jid fp dt).error_message.isSome) := by
  refine ⟨validate_failed_message c s, process_failed_message c s,
    extract_failed_message c s, genPdf_failed_message c s fs, ?_,
    run_failed_message c fs s0, entry_failed_message c fs s0,
    background_failed_message c bg fs jid fp dt⟩
  rw [handleError_error_message]
  exact id

/-- Witness for C5 at the concrete extraction-failure run. -/
theorem c5_failed_implies_error_message_witness :
    (runWorkflow cExtractFail [] s0demo).final.error_message.isSome :=
  (c5_failed_implies_error_message cExtractFail [] s0demo s0demo none "job1"
    "uploads/job1.pdf" "employment_contract").2.2.2.2.2.1 (by decide)

/-- C6: a run that ends `completed` did so in `generate_pdf`: its
`pdf_path` is exactly the path the PDF generator returned, and that path is
in the file system at the moment of the transition (the generator writes
the file before returning; `completed` is set afterwards, as the final
action of the run).  No other node ever assigns `completed`. -/
theorem c6_completed_implies_pdf (c : Collab) (fs : List String) (s0 s : ProcessingState) :
    ((runWorkflow c fs s0).final.processing_status = Status.completed →
      ∃ p, c.genPdf = .returns p ∧
        (runWorkflow c fs s0).final.pdf_path = some p ∧
        p ∈ (runWorkflow c fs s0).files) ∧
    (validateDocumentNode c s).processing_status ≠ Status.completed ∧
    (processDocumentNode c s).processing_status ≠ Status.completed ∧
    (extractDataNode c s).processing_status ≠ Status.completed ∧
    (handleErrorNode s).processing_status ≠ Status.completed := by
  refine ⟨run_completed c fs s0, ?_, ?_, ?_, ?_⟩
  · rcases validate_status_or c s with h | h <;> simp [h]
  · rcases process_status_or c s with h | h <;> simp [h]
  · rcases extract_status_or c s with h | h <;> simp [h]
  · simp [handleError_status]

/-- Witness for C6 at the all-success run. -/
theorem c6_completed_implies_pdf_witness :
    ∃ p, cAllOk.genPdf = .returns p ∧
      (runWorkflow cAllOk [] s0demo).final.pdf_path = some p ∧
      p ∈ (runWorkflow cAllOk [] s0demo).files :=
  (c6_completed_implies_pdf cAllOk [] s0demo s0demo).1 (by decide)

/-- C7: a collaborator exception at any step boundary is caught and
converted into the job's failure fields (`processing_status = failed`,
`error_message` set from the exception text); the `process_document` entry
point does the same for exceptions of the invocation machinery.  Every node
is a total function on states, so no exception escapes. -/
theorem c7_exceptions_converted (c : Collab) (fs : List String) (s : ProcessingState) :
    (∀ m, c.validateFormat = .raises m →
      (validateDocumentNode c s).processing_status = Status.failed ∧
      (validateDocumentNode c s).error_message = some ("Validation error: " ++ m)) ∧
    (∀ m, c.processDoc = .raises m →
      (processDocumentNode c s).processing_status = Status.failed ∧
      (processDocumentNode c s).error_message = some ("Processing error: " ++ m)) ∧
    (∀ m, c.extractData = .raises m →
      (extractDataNode c s).processing_status = Status.failed ∧
      (extractDataNode c s).error_message = some ("Extraction error: " ++ m)) ∧
    (∀ m, c.genPdf = .raises m →
      (generatePdfNode c fs s).1.processing_status = Status.failed ∧
      (generatePdfNode c fs s).1.error_message.isSome) ∧
    (∀ m, c.invokeException = some m →
      (processDocumentEntry c fs s).processing_status = Status.failed ∧
      (processDocumentEntry c fs s).error_message = some ("Workflow error: " ++ m)) := by
  refine ⟨?_, ?_, ?_, ?_, ?_⟩
  · intro m h; unfold validateDocumentNode; rw [h]; simp
  · intro m h; unfold processDocumentNode; rw [h]; simp
  · intro m h; unfold extractDataNode; rw [h]; simp
  · intro m h
    unfold generatePdfNode
    rcases hd : structuredDataFalsy s.structured_data <;> rw [h] <;> simp [hd]
  · intro m h; unfold processDocumentEntry; rw [h]; simp

/-- Witness for C7 at the all-raise collaborator behavior. -/
theorem c7_exceptions_converted_witness :
    (validateDocumentNode cAllRaise s0demo).processing_status = Status.failed ∧
    (processDocumentEntry cAllRaise [] s0demo).error_message =
      some "Workflow error: wboom" :=
  ⟨((c7_exceptions_converted cAllRaise [] s0demo).1 "vboom" rfl).1,
   ((c7_exceptions_converted cAllRaise [] s0demo).2.2.2.2 "wboom" rfl).2⟩

/-- C9: each step node mutates only its designated output field plus
status/current-node/metadata/error bookkeeping.  In particular the
extract-text step (`process_document`) leaves `job_id`, `document_type`,
`file_path`, `structured_data`, `pdf_path` and `retry_count` unchanged, and
every step leaves `current_node` equal to its own name (it is set before
the step's work and never reset). -/
theorem c9_step_frame_conditions (c : Collab) (fs : List String) (s : ProcessingState) :
    ((processDocumentNode c s).job_id = s.job_id ∧
     (processDocumentNode c s).document_type = s.document_type ∧
     (processDocumentNode c s).file_path = s.file_path ∧
     (processDocumentNode c s).structured_data = s.structured_data ∧
     (processDocumentNode c s).pdf_path = s.pdf_path ∧
     (processDocumentNode c s).retry_count = s.retry_count ∧
     (processDocumentNode c s).current_node = some "process_document") ∧
    ((validateDocumentNode c s).job_id = s.job_id ∧
     (validateDocumentNode c s).document_type = s.document_type ∧
     (validateDocumentNode c s).file_path = s.file_path ∧
     (validateDocumentNode c s).extracted_text = s.extracted_text ∧
     (validateDocumentNode c s).structured_data = s.structured_data ∧
     (validateDocumentNode c s).pdf_path = s.pdf_path ∧
     (validateDocumentNode c s).retry_count = s.retry_count ∧
     (validateDocumentNode c s).current_node = some "validate_document") ∧
    ((extractDataNode c s).job_id = s.job_id ∧
     (extractDataNode c s).document_type = s.document_type ∧
     (extractDataNode c s).file_path = s.file_path ∧
     (extractDataNode c s).extracted_text = s.extracted_text ∧
     (extractDataNode c s).pdf_path = s.pdf_path ∧
     (extractDataNode c s).retry_count = s.retry_count ∧
     (extractDataNode c s).current_node = some "extract_data") ∧
    ((generatePdfNode c fs s).1.job_id = s.job_id ∧
     (generatePdfNode c fs s).1.document_type = s.document_type ∧
     (generatePdfNode c fs s).1.file_path = s.file_path ∧
     (generatePdfNode c fs s).1.extracted_text = s.extracted_text ∧
     (generatePdfNode c fs s).1.structured_data = s.structured_data ∧
     (generatePdfNode c fs s).1.retry_count = s.retry_count ∧
     (generatePdfNode c fs s).1.current_node = some "generate_pdf") := by
  obtain ⟨p1, p2, p3, p4, p5, p6⟩ := process_frame c s
  obtain ⟨v1, v2, v3, v4, v5, v6, v7⟩ := validate_frame c s
  obtain ⟨e1, e2, e3, e4, e5, e6⟩ := extract_frame c s
  obtain ⟨g1, g2, g3, g4, g5, g6⟩ := genPdf_frame c s fs
  exact ⟨⟨p1, p2, p3, p4, p5, p6, process_current_node c s⟩,
    ⟨v1, v2, v3, v4, v5, v6, v7, validate_current_node c s⟩,
    ⟨e1, e2, e3, e4, e5, e6, extract_current_node c s⟩,
    ⟨g1, g2, g3, g4, g5, g6, genPdf_current_node c s fs⟩⟩

/-- C8: any of the three client errors — invalid `document_type`,
extension outside the allowed set, oversize file — makes `POST /upload`
fail with a 400 before the job id is generated: the store is unchanged and
no job id exists. -/
theorem c8_upload_rejects_before_job_creation (dt : String) (f : UploadFile)
    (jid : String) (store : JobStore)
    (h : dt ∉ validDocumentTypes ∨
         strToLower (pathSuffix f.filename) ∉ ALLOWED_EXTENSIONS ∨
         f.size > MAX_FILE_SIZE) :
    (∃ e, (uploadDocument dt f jid store).response = Except.error e ∧
      e.status_code = 400) ∧
    (uploadDocument dt f jid store).store = store ∧
    (uploadDocument dt f jid store).jobIdGenerated = false := by
  by_cases hdt : dt ∈ validDocumentTypes
  · have hrest : strToLower (pathSuffix f.filename) ∉ ALLOWED_EXTENSIONS ∨
        f.size > MAX_FILE_SIZE := by
      rcases h with h | h | h
      · exact absurd hdt h
      · exact Or.inl h
      · exact Or.inr h
    unfold uploadDocument validate_file_upload
    by_cases hfn : f.filename = ""
    · simp [hdt, hfn]
    · rcases hrest with hext | hsz
      · simp [hdt, hfn, hext]
      · by_cases hext : strToLower (pathSuffix f.filename) ∈ ALLOWED_EXTENSIONS
        · simp [hdt, hfn, hext, hsz]
        · simp [hdt, hfn, hext]
  · unfold uploadDocument
    simp [hdt]

/-- Witness for C8: a `.exe` upload is rejected with a 400 and no job. -/
theorem c8_upload_rejects_before_job_creation_witness :
    (∃ e, (uploadDocument "employment_contract" { filename := "malware.exe", size := 100 }
        "j1" []).response = Except.error e ∧ e.status_code = 400) ∧
    (uploadDocument "employment_contract" { filename := "malware.exe", size := 100 }
        "j1" []).store = [] ∧
    (uploadDocument "employment_contract" { filename := "malware.exe", size := 100 }
        "j1" []).jobIdGenerated = false :=
  c8_upload_rejects_before_job_creation "employment_contract"
    { filename := "malware.exe", size := 100 } "j1" [] (by decide)

section PathLemmas

lemma takeWhile_all_append {p : Char → Bool} (l₁ l₂ : List Char) (h : ∀ x ∈ l₁, p x) :
    (l₁ ++ l₂).takeWhile p = l₁ ++ l₂.takeWhile p := by
  induction l₁ with
  | nil => simp
  | cons c cs ih =>
    have hc : p c := h c (List.mem_cons_self c cs)
    simp only [List.cons_append, List.takeWhile_cons, hc, if_true]
    rw [ih (fun x hx => h x (List.mem_cons_of_mem c hx))]

lemma splitAtFirstDot_append (a b : List Char) (h : ∀ x ∈ a, x ≠ '.') :
    splitAtFirstDot (a ++ '.' :: b) = some (a, b) := by
  induction a with
  | nil => simp [splitAtFirstDot]
  | cons c cs ih =>
    have hc : c ≠ '.' := h c (List.mem_cons_self c cs)
    simp only [List.cons_append, splitAtFirstDot, hc, if_false, if_neg, List.append_eq]
    rw [ih (fun x hx => h x (List.mem_cons_of_mem c hx))]

lemma pathNameChars_slash (l₀ l : List Char) (h : ∀ x ∈ l, x ≠ '/') :
    pathNameChars (l₀ ++ '/' :: l) = l := by
  unfold pathNameChars
  rw [List.reverse_append, List.reverse_cons, List.append_assoc]
  rw [takeWhile_all_append _ _ (fun x hx => by
    simpa using h x (List.mem_reverse.mp hx))]
  simp

lemma pySuffixChars_dot (l tail : List Char)
    (htd : ∀ x ∈ tail, x ≠ '.') (hl : l ≠ []) (ht : tail ≠ []) :
    pySuffixChars (l ++ '.' :: tail) = '.' :: tail := by
  unfold pySuffixChars
  rw [List.reverse_append, List.reverse_cons, List.append_assoc, List.singleton_append]
  rw [splitAtFirstDot_append _ _ (fun x hx => htd x (List.mem_reverse.mp hx))]
  simp [hl, ht]

lemma pathSuffix_upload (jobId : String) (tail : List Char)
    (hjne : jobId.data ≠ [])
    (hjslash : ∀ ch ∈ jobId.data, ch ≠ '/')
    (htdot : ∀ ch ∈ tail, ch ≠ '.')
    (htslash : ∀ ch ∈ tail, ch ≠ '/')
    (htne : tail ≠ []) :
    pathSuffix ("uploads/" ++ jobId ++ String.mk ('.' :: tail)) = String.mk ('.' :: tail) := by
  unfold pathSuffix
  have hdata : ("uploads/" ++ jobId ++ String.mk ('.' :: tail)).data =
      ['u', 'p', 'l', 'o', 'a', 'd', 's'] ++ '/' :: (jobId.data ++ '.' :: tail) := by
    rw [String.data_append, String.data_append]
    have : "uploads/".data = ['u', 'p', 'l', 'o', 'a', 'd', 's', '/'] := by decide
    rw [this]
    simp
  rw [hdata]
  rw [pathNameChars_slash _ _ (fun x hx => by
    rcases List.mem_append.mp hx with hx | hx
    · exact hjslash x hx
    · rcases List.mem_cons.mp hx with hx | hx
      · simp [hx]
      · exact htslash x hx)]
  rw [pySuffixChars_dot _ _ htdot hjne htne]

lemma validate_upload_ext (jobId : String) (tail : List Char)
    (hjne : jobId.data ≠ [])
    (hch : ∀ ch ∈ jobId.data, ch ≠ '.' ∧ ch ≠ '/')
    (htdot : ∀ ch ∈ tail, ch ≠ '.')
    (htslash : ∀ ch ∈ tail, ch ≠ '/')
    (htne : tail ≠ [])
    (hsupp : getSupportedFormats.contains
      (lstripDots (strToLower (String.mk ('.' :: tail)))) = true) :
    validate_file_format ("uploads/" ++ jobId ++ String.mk ('.' :: tail)) = true := by
  unfold validate_file_format
  rw [pathSuffix_upload jobId tail hjne (fun ch h => (hch ch h).2) htdot htslash htne]
  exact hsupp

end PathLemmas

/-- C10: every extension the upload endpoint accepts is (after stripping
the dot) in `DocumentProcessor`'s supported-format list; consequently, for
a job created through `POST /upload` (file stored at `uploads/` plus the
uuid job id plus the lowered extension, with job ids dot-free, slash-free
and nonempty), `validate_file_format` returns `True` on the stored path —
and with the validator returning `True`, the validate node's
unsupported-format failure branch is not taken. -/
theorem c10_allowed_extensions_supported :
    (∀ e ∈ ALLOWED_EXTENSIONS, lstripDots e ∈ getSupportedFormats) ∧
    (∀ (jobId ext : String), ext ∈ ALLOWED_EXTENSIONS →
      jobId.data ≠ [] →
      (∀ ch ∈ jobId.data, ch ≠ '.' ∧ ch ≠ '/') →
      validate_file_format ("uploads/" ++ jobId ++ ext) = true) ∧
    (∀ (c : Collab) (s : ProcessingState), c.validateFormat = .returns true →
      (validateDocumentNode c s).processing_status = Status.processing) := by
  refine ⟨by decide, ?_, ?_⟩
  · intro jobId ext hext hne hch
    simp only [ALLOWED_EXTENSIONS, List.mem_cons, List.not_mem_nil, or_false] at hext
    rcases hext with h | h | h | h | h | h | h
    · subst h
      rw [show (".pdf" : String) = String.mk ['.', 'p', 'd', 'f'] from by decide]
      exact validate_upload_ext jobId ['p', 'd', 'f'] hne hch (by decide) (by decide)
        (by decide) (by decide)
    · subst h
      rw [show (".docx" : String) = String.mk ['.', 'd', 'o', 'c', 'x'] from by decide]
      exact validate_upload_ext jobId ['d', 'o', 'c', 'x'] hne hch (by decide) (by decide)
        (by decide) (by decide)
    · subst h
      rw [show (".png" : String) = String.mk ['.', 'p', 'n', 'g'] from by decide]
      exact validate_upload_ext jobId ['p', 'n', 'g'] hne hch (by decide) (by decide)
        (by decide) (by decide)
    · subst h
      rw [show (".jpg" : String) = String.mk ['.', 'j', 'p', 'g'] from by decide]
      exact validate_upload_ext jobId ['j', 'p', 'g'] hne hch (by decide) (by decide)
        (by decide) (by decide)
    · subst h
      rw [show (".jpeg" : String) = String.mk ['.', 'j', 'p', 'e', 'g'] from by decide]
      exact validate_upload_ext jobId ['j', 'p', 'e', 'g'] hne hch (by decide) (by decide)
        (by decide) (by decide)
    · subst h
      rw [show (".tiff" : String) = String.mk ['.', 't', 'i', 'f', 'f'] from by decide]
      exact validate_upload_ext jobId ['t', 'i', 'f', 'f'] hne hch (by decide) (by decide)
        (by decide) (by decide)
    · subst h
      rw [show (".bmp" : String) = String.mk ['.', 'b', 'm', 'p'] from by decide]
      exact validate_upload_ext jobId ['b', 'm', 'p'] hne hch (by decide) (by decide)
        (by decide) (by decide)
  · intro c s h
    unfold validateDocumentNode
    rw [h]
    simp

/-- Witness for C10 at a concrete job id and the `.pdf` extension. -/
theorem c10_allowed_extensions_supported_witness :
    validate_file_format ("uploads/" ++ "ab12" ++ ".pdf") = true :=
  c10_allowed_extensions_supported.2.1 "ab12" ".pdf" (by decide) (by decide) (by decide)

end LegalDocIntake
